import Mathlib

/-!
# Session lifecycle of the user controller

A shallow embedding of `src/controllers/user.controller.js` and
`src/utils/cloundary.js`.  Every request handler becomes a function from the
collaborators, the credential store and the request to a `Result`: what the
handler returned or threw, the store afterwards, and the calls it made to the
upload collaborator and to `User.create`.

The user model (`models/user.model.js`), `ApiError`, `ApiResponse` and
`asyncHandler` are not part of the sources; the model's methods and the
third-party libraries (jsonwebtoken, cloudinary, fs) are fields of
`Collaborators`, and the store operations are modelled from the specification.
-/

namespace Backend

/-! ## JavaScript values -/

/-- Code points that `String.prototype.trim` strips: the WhiteSpace and
LineTerminator productions of ECMAScript. -/
def isJsWhitespace (c : Char) : Bool :=
  let n := c.toNat
  n == 0x09 || n == 0x0A || n == 0x0B || n == 0x0C || n == 0x0D || n == 0x20 ||
  n == 0xA0 || n == 0x1680 || (decide (0x2000 ≤ n) && decide (n ≤ 0x200A)) ||
  n == 0x2028 || n == 0x2029 || n == 0x202F || n == 0x205F || n == 0x3000 || n == 0xFEFF

/-- The method `String.prototype.trim`. -/
def trim (s : String) : String :=
  ⟨((s.data.dropWhile isJsWhitespace).reverse.dropWhile isJsWhitespace).reverse⟩

/-- The method `String.prototype.toLowerCase`, restricted to the ASCII letters:
`A` to `Z` are mapped to `a` to `z` and every other code point is left as it
is, where the method itself also lowers the letters outside ASCII. -/
def toLowerCase (s : String) : String :=
  ⟨s.data.map Char.toLower⟩

/-- Truthiness of a value that is a string or `undefined`: only the non-empty
string is truthy. -/
def truthy : Option String → Bool
  | some s => s != ""
  | none => false

/-- The operator `a || b` on values that are strings or `undefined`. -/
def jsOr (a b : Option String) : Option String :=
  if truthy a then a else b

/-- What a handler can throw. `apiError` is `new ApiError(statusCode, message)`;
the others are the runtime's own errors and the errors of the libraries. -/
inductive Thrown where
  | apiError (statusCode : Nat) (message : String)
  | typeError (message : String)
  | referenceError (message : String)
  | error (message : String)
deriving DecidableEq, Repr

deriving instance DecidableEq for Except

/-- The `message` property of a thrown error. -/
def Thrown.message : Thrown → String
  | .apiError _ m => m
  | .typeError m => m
  | .referenceError m => m
  | .error m => m

/-! ## The credential store -/

/-- A user document. A field that is `none` is absent from the document
(`undefined`), as after a projection that excludes it. -/
structure User where
  _id : Nat
  username : Option String
  email : Option String
  fullName : Option String
  password : Option String
  avatar : Option String
  coverImage : Option String
  refreshToken : Option String
  watchHistory : List Nat
deriving DecidableEq, Repr

/-- The users collection. -/
abbrev Store := List User

/-- The argument of `User.create` in `registerUser`. -/
structure NewUser where
  fullName : Option String
  avatar : Option String
  coverImage : Option String
  email : Option String
  password : Option String
  username : Option String
deriving DecidableEq, Repr

/-- Modelled from the spec: `findById(id)` of the Credential Store collaborator
(models/user.model.js is absent). The document with that `_id`, or null; an
undefined id finds nothing. -/
def findById (store : Store) (id : Option Nat) : Option User :=
  store.find? (fun u => some u._id == id)

/-- Modelled from the spec: `findOne(filterByUsernameOrEmail)` of the Credential
Store collaborator (models/user.model.js is absent), for the filter
`$or: [{ username }, { email }]` the controller builds. The username is
case-normalized lowercase at the store, so the filter's username is cast to
lower case as a stored one is; the result is the first document whose username
equals the cast username or whose email equals the filter's email. An undefined
filter value matches only a document that lacks the field. -/
def findOne (store : Store) (username email : Option String) : Option User :=
  store.find? (fun u => u.username == username.map toLowerCase || u.email == email)

/-- Modelled from the spec: the store write behind `user.save(...)` (models/user.model.js
is absent). The document replaces the stored one that has its `_id`. -/
def save : Store → User → Store
  | [], _ => []
  | u :: rest, doc => if u._id = doc._id then doc :: rest else u :: save rest doc

/-- The update document the controller passes to `findByIdAndUpdate`, by the
keys it uses. A key that is absent, or whose value is `undefined`, is `none`. -/
structure Update where
  refreshToken : Option String
  avatar : Option String
  coverImage : Option String
deriving DecidableEq, Repr

/-- The write of an update document to a user document. The store sets the keys
that have a value; a key whose value is `undefined` is stripped from the update
before the write (Mongoose 6 and later), so the stored field keeps its value. -/
def applyUpdate (update : Update) (u : User) : User :=
  { u with
    refreshToken :=
      match update.refreshToken with
      | some value => some value
      | none => u.refreshToken
    avatar :=
      match update.avatar with
      | some value => some value
      | none => u.avatar
    coverImage :=
      match update.coverImage with
      | some value => some value
      | none => u.coverImage }

/-- Modelled from the spec: `updateById(id, patch, returnUpdated)` of the Credential
Store collaborator (models/user.model.js is absent). The update is written to
the document with that `_id`; the updated document is returned, or null. -/
def findByIdAndUpdate (store : Store) (id : Option Nat) (update : Update) :
    Store × Option User :=
  match findById store id with
  | none => (store, none)
  | some u => (save store (applyUpdate update u), some (applyUpdate update u))

/-- The projection `.select(...)` with excluded fields: `password` and
`refreshToken` are the two the controller ever excludes. -/
def select (excluded : List String) (u : User) : User :=
  { u with
    password := if "password" ∈ excluded then none else u.password
    refreshToken := if "refreshToken" ∈ excluded then none else u.refreshToken }

/-- An `_id` no document of the store has. -/
def freshId (store : Store) : Nat :=
  (store.map (fun u => u._id)).foldr max 0 + 1

/-- Modelled from the spec: `create(fields) -> record` of the Credential Store
collaborator (models/user.model.js is absent). Username and email uniqueness is
enforced at the store, the password is hashed on the write path, and the new
record has an empty refresh-token slot and an empty watch history. -/
def create (hash : Option String → Option String) (store : Store) (doc : NewUser) :
    Except Thrown (Store × User) :=
  if store.any (fun u => u.username == doc.username || u.email == doc.email) then
    .error (.error "E11000 duplicate key error collection")
  else
    let user : User :=
      { _id := freshId store
        username := doc.username
        email := doc.email
        fullName := doc.fullName
        password := hash doc.password
        avatar := doc.avatar
        coverImage := doc.coverImage
        refreshToken := none
        watchHistory := [] }
    .ok (store ++ [user], user)

/-! ## Collaborators -/

/-- The response of `cloudinary.uploader.upload`. -/
structure UploadResponse where
  url : Option String
deriving DecidableEq, Repr

/-- An entry of the watch history after the aggregation. -/
structure Video where
  _id : Nat
  owner : List User
deriving DecidableEq, Repr

/-- Modelled from the spec: the Token Service, the password check and the hashing
of the user model (models/user.model.js is absent), with the libraries the two
source files call: `jwt.verify` with the refresh secret, `cloudinary.uploader.upload`,
`fs.existsSync`, `fs.unlinkSync`, the watch-history aggregation of the database,
and the `NODE_ENV === production` switch. -/
structure Collaborators where
  generateAccessToken : User → String
  generateRefreshToken : User → String
  isPasswordCorrect : User → Option String → Bool
  hashPassword : Option String → Option String
  jwtVerify : String → Except String (Option Nat)
  upload : String → Except String UploadResponse
  existsSync : Option String → Bool
  unlinkSync : Option String → Except String Unit
  aggregateWatchHistory : Store → Nat → List (Option (List Video))
  production : Bool

/-! ## Requests and responses -/

/-- A file multer stored locally. -/
structure File where
  path : Option String
deriving DecidableEq, Repr

/-- The value of `req.files` for the two upload fields of registration. -/
structure Files where
  avatar : Option (List File)
  coverImage : Option (List File)
deriving DecidableEq, Repr

/-- The value of `req.body`. -/
structure Body where
  fullName : Option String
  email : Option String
  username : Option String
  password : Option String
  refreshToken : Option String
  oldPassword : Option String
  newPassword : Option String
deriving DecidableEq, Repr

/-- The value of `req.cookies`. -/
structure Cookies where
  accessToken : Option String
  refreshToken : Option String
deriving DecidableEq, Repr

/-- A request; `user` is what the access-token middleware attached. -/
structure Request where
  body : Body
  cookies : Cookies
  user : Option User
  file : Option File
  files : Option Files
deriving DecidableEq, Repr

/-- The options of the two cookies. -/
structure CookieOptions where
  httpOnly : Bool
  secure : Bool
deriving DecidableEq, Repr

/-- The `data` of an `ApiResponse`. -/
inductive Data where
  | empty
  | user (user : Option User)
  | login (user : Option User) (accessToken refreshToken : String)
  | tokens (accessToken refreshToken : String)
  | watchHistory (videos : List Video)
deriving DecidableEq, Repr

/-- The envelope `new ApiResponse(statusCode, data, message)`. -/
structure ApiResponse where
  statusCode : Nat
  data : Data
  message : String
deriving DecidableEq, Repr

/-- What `res.status(..).cookie(..).clearCookie(..).json(..)` sends. -/
structure Reply where
  status : Nat
  cookies : List (String × String × CookieOptions)
  clearedCookies : List (String × CookieOptions)
  json : ApiResponse
deriving DecidableEq, Repr

/-- A call a handler made to the upload collaborator or to `User.create`. -/
inductive Call where
  | upload (localFilepath : Option String)
  | create (doc : NewUser)
deriving DecidableEq, Repr

/-- The run of a handler: the reply or the error thrown, the store afterwards,
and the collaborator calls in order. -/
structure Result where
  outcome : Except Thrown Reply
  store : Store
  calls : List Call
deriving DecidableEq

/-- The status a run ends with, when it ends with a reply or an `ApiError`. -/
def Result.statusCode (r : Result) : Option Nat :=
  match r.outcome with
  | .ok reply => some reply.status
  | .error (.apiError statusCode _) => some statusCode
  | .error _ => none

/-- The cookies a run set: none when it threw. -/
def Result.cookies (r : Result) : List (String × String × CookieOptions) :=
  match r.outcome with
  | .ok reply => reply.cookies
  | .error _ => []

/-! ## `src/utils/cloundary.js` -/

/-- The function `uploadOnCloudinary`. The `try` block returns null for a falsy
path and the response of the upload otherwise; the `catch` block removes the
local file when it exists, swallowing the error of the removal, and returns
null. The result is `Except` so that an error escaping the function would show. -/
def uploadOnCloudinary (env : Collaborators) (localFilepath : Option String) :
    Except Thrown (Option UploadResponse) :=
  let tryBlock : Except Thrown (Option UploadResponse) :=
    match localFilepath with
    | none => .ok none
    | some path =>
      if !truthy (some path) then .ok none
      else
        match env.upload path with
        | .error message => .error (.error message)
        | .ok response => .ok (some response)
  match tryBlock with
  | .ok response => .ok response
  | .error _ =>
    let cleanup : Except Thrown Unit :=
      if env.existsSync localFilepath then
        match env.unlinkSync localFilepath with
        | .ok _ => .ok ()
        | .error _ => .ok ()
      else .ok ()
    match cleanup with
    | .ok _ => .ok none
    | .error e => .error e

/-! ## `src/controllers/user.controller.js` -/

/-- The identifiers the module binds: its six imports (lines 1 to 6) and its own
top-level constants. -/
def moduleScope : List String :=
  ["asyncHandler", "ApiError", "ApiResponse", "User", "uploadOnCloudinary", "jwt",
   "generateAccessAndRefreshTokens", "registerUser", "loginUser", "logoutUser",
   "refreshAccessToken", "changeCurrentPassword", "getCurrentUser",
   "updateAccountDetails", "updateUserAvatar", "updateUserCoverImage",
   "getUserChannelProfile", "getWatchHistory"]

/-- Evaluation of a free identifier of the module: a name the module does not
bind (and that is no global) throws a ReferenceError. -/
def resolveIdentifier (name : String) : Except Thrown Unit :=
  if name ∈ moduleScope then .ok () else .error (.referenceError (name ++ " is not defined"))

/-- The options of both cookies: http-only, secure in production. -/
def cookieOptions (env : Collaborators) : CookieOptions :=
  { httpOnly := true, secure := env.production }

/-- The function `generateAccessAndRefreshTokens` (lines 8 to 19): whatever the
`try` block throws, a null user included, becomes `ApiError(500)`. -/
def generateAccessAndRefreshTokens (env : Collaborators) (store : Store) (userId : Option Nat) :
    Except Thrown (Store × String × String) :=
  match findById store userId with
  | none => .error (.apiError 500 "Something went wrong while generating tokens")
  | some user =>
    let accessToken := env.generateAccessToken user
    let refreshToken := env.generateRefreshToken user
    let user := { user with refreshToken := some refreshToken }
    .ok (save store user, accessToken, refreshToken)

/-- The expression `field?.trim() === ""` of line 24. -/
def isBlankField (field : Option String) : Bool :=
  match field with
  | none => false
  | some s => trim s == ""

/-- The handler `registerUser` (lines 21 to 71). -/
def registerUser (env : Collaborators) (store : Store) (req : Request) : Result :=
  let fullName := req.body.fullName
  let email := req.body.email
  let username := req.body.username
  let password := req.body.password
  if [fullName, email, username, password].any isBlankField then
    ⟨.error (.apiError 400 "All fields are required"), store, []⟩
  else
    match findOne store username email with
    | some _ => ⟨.error (.apiError 409 "User with email or username already exists"), store, []⟩
    | none =>
      let avatarLocalPath : Option String :=
        ((req.files.bind (fun f => f.avatar)).bind List.head?).bind (fun f => f.path)
      let coverImageLocalPath : Option String :=
        match req.files with
        | none => none
        | some files =>
          match files.coverImage with
          | some (file :: _) => file.path
          | _ => none
      if !truthy avatarLocalPath then
        ⟨.error (.apiError 400 "Avatar file is required"), store, []⟩
      else
        match uploadOnCloudinary env avatarLocalPath with
        | .error e => ⟨.error e, store, [.upload avatarLocalPath]⟩
        | .ok avatar =>
          let coverUpload : Except Thrown (Option UploadResponse) × List Call :=
            if truthy coverImageLocalPath then
              (uploadOnCloudinary env coverImageLocalPath, [.upload coverImageLocalPath])
            else (.ok none, [])
          let calls := Call.upload avatarLocalPath :: coverUpload.2
          match coverUpload.1 with
          | .error e => ⟨.error e, store, calls⟩
          | .ok coverImage =>
            match avatar with
            | none => ⟨.error (.apiError 400 "Avatar upload failed"), store, calls⟩
            | some avatar =>
              match username with
              | none =>
                ⟨.error (.typeError "Cannot read properties of undefined (reading toLowerCase)"),
                  store, calls⟩
              | some name =>
                let doc : NewUser :=
                  { fullName := fullName
                    avatar := avatar.url
                    coverImage := some ((jsOr (coverImage.bind (fun c => c.url)) (some "")).getD "")
                    email := email
                    password := password
                    username := some (toLowerCase name) }
                match create env.hashPassword store doc with
                | .error e => ⟨.error e, store, calls ++ [.create doc]⟩
                | .ok (store1, user) =>
                  match (findById store1 (some user._id)).map (select ["password", "refreshToken"]) with
                  | none =>
                    ⟨.error (.apiError 500 "Something went wrong while registering the user"),
                      store1, calls ++ [.create doc]⟩
                  | some createdUser =>
                    ⟨.ok { status := 201, cookies := [], clearedCookies := [],
                           json := ⟨201, .user (some createdUser), "User registered successfully"⟩ },
                      store1, calls ++ [.create doc]⟩

/-- The handler `loginUser` (lines 73 to 105). -/
def loginUser (env : Collaborators) (store : Store) (req : Request) : Result :=
  let email := req.body.email
  let username := req.body.username
  let password := req.body.password
  if !truthy username && !truthy email then
    ⟨.error (.apiError 400 "Username or email is required"), store, []⟩
  else
    match findOne store username email with
    | none => ⟨.error (.apiError 404 "User does not exist"), store, []⟩
    | some user =>
      if !env.isPasswordCorrect user password then
        ⟨.error (.apiError 401 "Invalid credentials"), store, []⟩
      else
        match generateAccessAndRefreshTokens env store (some user._id) with
        | .error e => ⟨.error e, store, []⟩
        | .ok (store1, accessToken, refreshToken) =>
          let loggedInUser :=
            (findById store1 (some user._id)).map (select ["password", "refreshToken"])
          let options := cookieOptions env
          ⟨.ok { status := 200
                 cookies := [("accessToken", accessToken, options),
                             ("refreshToken", refreshToken, options)]
                 clearedCookies := []
                 json := ⟨200, .login loggedInUser accessToken refreshToken,
                          "User logged in successfully"⟩ },
            store1, []⟩

/-- The handler `logoutUser` (lines 107 to 119). The update document of line 108
is `refreshToken: undefined`, with no `$unset` and no null: its one key has no
value. -/
def logoutUser (env : Collaborators) (store : Store) (req : Request) : Result :=
  let updated :=
    findByIdAndUpdate store (req.user.map (fun u => u._id))
      { refreshToken := none, avatar := none, coverImage := none }
  let options := cookieOptions env
  ⟨.ok { status := 200
         cookies := []
         clearedCookies := [("accessToken", options), ("refreshToken", options)]
         json := ⟨200, .empty, "User logged out successfully"⟩ },
    updated.1, []⟩

/-- The handler `refreshAccessToken` (lines 121 to 157). Everything the `try`
block throws is thrown again as `ApiError(401)` with the same message, or with
the default message when that one is empty. -/
def refreshAccessToken (env : Collaborators) (store : Store) (req : Request) : Result :=
  let incomingRefreshToken := jsOr req.cookies.refreshToken req.body.refreshToken
  match incomingRefreshToken with
  | none => ⟨.error (.apiError 401 "Unauthorized request"), store, []⟩
  | some token =>
    if !truthy (some token) then
      ⟨.error (.apiError 401 "Unauthorized request"), store, []⟩
    else
      let tryBlock : Except Thrown (Store × Reply) :=
        match env.jwtVerify token with
        | .error message => .error (.error message)
        | .ok decodedId =>
          match findById store decodedId with
          | none => .error (.apiError 401 "Invalid Refresh Token")
          | some user =>
            if some token != user.refreshToken then
              .error (.apiError 401 "Refresh Token is expired or used")
            else
              let options := cookieOptions env
              match generateAccessAndRefreshTokens env store (some user._id) with
              | .error e => .error e
              | .ok (store1, accessToken, newRefreshToken) =>
                .ok (store1,
                  { status := 200
                    cookies := [("accessToken", accessToken, options),
                                ("refreshToken", newRefreshToken, options)]
                    clearedCookies := []
                    json := ⟨200, .tokens accessToken newRefreshToken, "Access Token refreshed"⟩ })
      match tryBlock with
      | .ok (store1, reply) => ⟨.ok reply, store1, []⟩
      | .error e =>
        ⟨.error (.apiError 401 (if e.message == "" then "Invalid refresh token" else e.message)),
          store, []⟩

/-- The handler `changeCurrentPassword` (lines 159 to 174); the new password is
hashed on the write path of the store. -/
def changeCurrentPassword (env : Collaborators) (store : Store) (req : Request) : Result :=
  let oldPassword := req.body.oldPassword
  let newPassword := req.body.newPassword
  match findById store (req.user.map (fun u => u._id)) with
  | none => ⟨.error (.apiError 404 "User not found"), store, []⟩
  | some user =>
    if !env.isPasswordCorrect user oldPassword then
      ⟨.error (.apiError 400 "Invalid old password"), store, []⟩
    else
      let user := { user with password := env.hashPassword newPassword }
      ⟨.ok { status := 200, cookies := [], clearedCookies := [],
             json := ⟨200, .empty, "Password changed successfully"⟩ },
        save store user, []⟩

/-- The handler `updateUserAvatar` (lines 201 to 223). Line 207 reads `avatar.url`
with no test of `avatar` itself, so a null upload result throws a TypeError. -/
def updateUserAvatar (env : Collaborators) (store : Store) (req : Request) : Result :=
  let avatarLocalPath := req.file.bind (fun f => f.path)
  if !truthy avatarLocalPath then
    ⟨.error (.apiError 400 "Avatar file is missing"), store, []⟩
  else
    match uploadOnCloudinary env avatarLocalPath with
    | .error e => ⟨.error e, store, [.upload avatarLocalPath]⟩
    | .ok none =>
      ⟨.error (.typeError "Cannot read properties of null (reading url)"), store,
        [.upload avatarLocalPath]⟩
    | .ok (some avatar) =>
      if !truthy avatar.url then
        ⟨.error (.apiError 400 "Error while uploading avatar"), store, [.upload avatarLocalPath]⟩
      else
        let updated :=
          findByIdAndUpdate store (req.user.map (fun u => u._id))
            { refreshToken := none, avatar := avatar.url, coverImage := none }
        ⟨.ok { status := 200, cookies := [], clearedCookies := [],
               json := ⟨200, .user (updated.2.map (select ["password"])),
                        "Avatar image updated successfully"⟩ },
          updated.1, [.upload avatarLocalPath]⟩

/-- The handler `updateUserCoverImage` (lines 225 to 247), the same shape as
`updateUserAvatar` on the `coverImage` field. -/
def updateUserCoverImage (env : Collaborators) (store : Store) (req : Request) : Result :=
  let coverImageLocalPath := req.file.bind (fun f => f.path)
  if !truthy coverImageLocalPath then
    ⟨.error (.apiError 400 "Cover image file is missing"), store, []⟩
  else
    match uploadOnCloudinary env coverImageLocalPath with
    | .error e => ⟨.error e, store, [.upload coverImageLocalPath]⟩
    | .ok none =>
      ⟨.error (.typeError "Cannot read properties of null (reading url)"), store,
        [.upload coverImageLocalPath]⟩
    | .ok (some coverImage) =>
      if !truthy coverImage.url then
        ⟨.error (.apiError 400 "Error while uploading cover image"), store,
          [.upload coverImageLocalPath]⟩
      else
        let updated :=
          findByIdAndUpdate store (req.user.map (fun u => u._id))
            { refreshToken := none, avatar := none, coverImage := coverImage.url }
        ⟨.ok { status := 200, cookies := [], clearedCookies := [],
               json := ⟨200, .user (updated.2.map (select ["password"])),
                        "Cover image updated successfully"⟩ },
          updated.1, [.upload coverImageLocalPath]⟩

/-- The handler `getWatchHistory` (lines 316 to 367). The pipeline argument is
evaluated first: `new mongoose.Types.ObjectId(req.user._id)` resolves the
identifier `mongoose`, then reads `req.user._id`; the aggregation and the reply
`user[0]?.WatchHistory || []` come after. -/
def getWatchHistory (env : Collaborators) (store : Store) (req : Request) : Result :=
  match resolveIdentifier "mongoose" with
  | .error e => ⟨.error e, store, []⟩
  | .ok _ =>
    match req.user with
    | none => ⟨.error (.typeError "Cannot read properties of undefined (reading _id)"), store, []⟩
    | some requester =>
      let user := env.aggregateWatchHistory store requester._id
      let history : List Video := ((user.head?.bind id).getD [])
      ⟨.ok { status := 200, cookies := [], clearedCookies := [],
             json := ⟨200, .watchHistory history, "Watch history fetched successfully"⟩ },
        store, []⟩

/-! ## Concrete collaborators and requests -/

/-- Collaborators whose tokens are a pure function of the identity, as section 4.1
of the specification describes `issueTokenPair`; passwords are "hashed" by a tag,
and the upload fails on one path. -/
def demoEnv : Collaborators :=
  { generateAccessToken := fun u => "access." ++ toString u._id
    generateRefreshToken := fun u => "refresh." ++ toString u._id
    isPasswordCorrect := fun u p => u.password == p.map (fun s => "hash:" ++ s)
    hashPassword := fun p => p.map (fun s => "hash:" ++ s)
    jwtVerify := fun t => if t = "refresh.1" then .ok (some 1) else .error "invalid signature"
    upload := fun path =>
      if path = "broken.png" then .error "upload failed" else .ok ⟨some ("https://cdn/" ++ path)⟩
    existsSync := fun _ => true
    unlinkSync := fun _ => .ok ()
    aggregateWatchHistory := fun store id =>
      (store.filter (fun u => u._id == id)).map (fun _ => some [])
    production := false }

/-- Collaborators whose refresh token changes at every issue: the new token is
the previous slot value with a mark appended. -/
def rotatingEnv : Collaborators :=
  { demoEnv with
    generateRefreshToken := fun u => (u.refreshToken.getD "refresh.1") ++ "+"
    jwtVerify := fun t =>
      if "refresh.1".data.isPrefixOf t.data then .ok (some 1) else .error "invalid signature" }

/-- A registered user whose slot holds the refresh token of `demoEnv`. -/
def alice : User :=
  { _id := 1, username := some "alice", email := some "alice@x.com", fullName := some "Alice",
    password := some "hash:Secr3t!", avatar := some "https://cdn/a.png", coverImage := some "",
    refreshToken := some "refresh.1", watchHistory := [] }

/-- A body with no field. -/
def emptyBody : Body :=
  ⟨none, none, none, none, none, none, none⟩

/-- A request with nothing in it. -/
def emptyRequest : Request :=
  ⟨emptyBody, ⟨none, none⟩, none, none, none⟩

/-- A refresh request that presents the token in the cookie. -/
def refreshRequest (token : String) : Request :=
  { emptyRequest with cookies := ⟨none, some token⟩ }

/-- A login request with a username and a password. -/
def loginRequest (username password : String) : Request :=
  { emptyRequest with body := { emptyBody with username := some username, password := some password } }

/-- A registration request with an avatar file. -/
def registerRequest (fullName email username password : Option String) : Request :=
  { emptyRequest with
    body := { emptyBody with fullName := fullName, email := email, username := username,
                             password := password }
    files := some ⟨some [⟨some "a.png"⟩], none⟩ }

/-- A request of the authenticated user with an uploaded file. -/
def fileRequest (user : User) (path : String) : Request :=
  { emptyRequest with user := some user, file := some ⟨some path⟩ }

/-! ## Store lemmas -/

theorem findById_cons (v : User) (rest : Store) (id : Option Nat) :
    findById (v :: rest) id = if some v._id = id then some v else findById rest id := by
  by_cases h : some v._id = id
  · simp [findById, List.find?_cons, h]
  · have hb : (some v._id == id) = false := by simpa using h
    simp [findById, List.find?_cons, hb, h]

theorem findById_some_id {store : Store} {id : Option Nat} {u : User}
    (h : findById store id = some u) : id = some u._id := by
  unfold findById at h
  have := List.find?_some h
  exact (by simpa using this : some u._id = id).symm

theorem findById_save {store : Store} {i : Nat} {u : User}
    (h : findById store (some i) = some u) (doc : User) (hdoc : doc._id = i) :
    findById (save store doc) (some i) = some doc := by
  induction store with
  | nil => simp [findById] at h
  | cons v rest ih =>
    by_cases hv : v._id = i
    · simp [save, findById_cons, hv, hdoc]
    · have hrest : findById rest (some i) = some u := by
        rw [findById_cons] at h
        simpa [hv] using h
      have hne : ¬ v._id = doc._id := by rw [hdoc]; exact hv
      simp only [save, hne, if_false]
      rw [findById_cons]
      simpa [hv] using ih hrest

theorem save_self {store : Store} {i : Nat} {u : User}
    (h : findById store (some i) = some u) : save store u = store := by
  induction store with
  | nil => rfl
  | cons v rest ih =>
    rw [findById_cons] at h
    by_cases hv : v._id = i
    · have hvu : v = u := by simpa [hv] using h
      simp [save, hvu]
    · have hrest : findById rest (some i) = some u := by simpa [hv] using h
      have hiu : i = u._id := by
        have := findById_some_id hrest
        simpa using this
      have hne : ¬ v._id = u._id := by rw [← hiu]; exact hv
      simp [save, hne, ih hrest]

theorem findById_of_findOne {store : Store} {username email : Option String} {user : User}
    (h : findOne store username email = some user) :
    ∃ stored, findById store (some user._id) = some stored ∧ stored._id = user._id := by
  have hmem : user ∈ store := List.mem_of_find?_eq_some h
  have hsome : (findById store (some user._id)).isSome = true := by
    unfold findById
    rw [List.find?_isSome]
    exact ⟨user, hmem, by simp⟩
  obtain ⟨stored, hstored⟩ := Option.isSome_iff_exists.mp hsome
  refine ⟨stored, hstored, ?_⟩
  have := findById_some_id hstored
  simpa using this.symm

/-! ## Refresh -/

/-- The mismatch branch of `refreshAccessToken` (line 135), with the falsy-token
branch of line 123 for the empty token. -/
theorem refreshAccessToken_of_mismatch (env : Collaborators) (store : Store) (req : Request)
    (token : String) (decodedId : Option Nat) (user : User)
    (hPresented : jsOr req.cookies.refreshToken req.body.refreshToken = some token)
    (hVerify : env.jwtVerify token = .ok decodedId)
    (hUser : findById store decodedId = some user)
    (hMismatch : user.refreshToken ≠ some token) :
    refreshAccessToken env store req =
      ⟨.error (.apiError 401
          (if token = "" then "Unauthorized request" else "Refresh Token is expired or used")),
        store, []⟩ := by
  unfold refreshAccessToken
  simp only [hPresented]
  by_cases hE : token = ""
  · simp [hE, truthy]
  · have hne : (some token != user.refreshToken) = true := by
      simp only [bne_iff_ne, ne_eq]
      exact fun h => hMismatch h.symm
    simp [hE, truthy, hVerify, hUser, hne, Thrown.message]

/-- The success branch of `refreshAccessToken`: the reply and the store after it. -/
theorem refreshAccessToken_of_match (env : Collaborators) (store : Store) (req : Request)
    (token : String) (decodedId : Option Nat) (user : User)
    (hPresented : jsOr req.cookies.refreshToken req.body.refreshToken = some token)
    (hNonempty : token ≠ "")
    (hVerify : env.jwtVerify token = .ok decodedId)
    (hUser : findById store decodedId = some user)
    (hMatch : user.refreshToken = some token) :
    refreshAccessToken env store req =
      ⟨.ok { status := 200
             cookies := [("accessToken", env.generateAccessToken user, cookieOptions env),
                         ("refreshToken", env.generateRefreshToken user, cookieOptions env)]
             clearedCookies := []
             json := ⟨200, .tokens (env.generateAccessToken user) (env.generateRefreshToken user),
                      "Access Token refreshed"⟩ },
        save store { user with refreshToken := some (env.generateRefreshToken user) }, []⟩ := by
  have hid : decodedId = some user._id := findById_some_id hUser
  have hUser2 : findById store (some user._id) = some user := by rw [← hid]; exact hUser
  unfold refreshAccessToken
  simp only [hPresented]
  simp [hNonempty, truthy, hVerify, hUser, hMatch, generateAccessAndRefreshTokens, hUser2]

/-- C1: a refresh token that passes verification and decodes to an existing user,
but is not equal to that user's stored slot, is rejected with ApiError 401; no
cookie is set, so no token pair is issued, and the store, hence the slot, is
what it was. (An empty token is rejected earlier, also with 401.) -/
theorem refreshAccessToken_mismatch_rejected (env : Collaborators) (store : Store) (req : Request)
    (token : String) (decodedId : Option Nat) (user : User)
    (hPresented : jsOr req.cookies.refreshToken req.body.refreshToken = some token)
    (hVerify : env.jwtVerify token = .ok decodedId)
    (hUser : findById store decodedId = some user)
    (hMismatch : user.refreshToken ≠ some token) :
    (refreshAccessToken env store req).outcome =
      .error (.apiError 401
        (if token = "" then "Unauthorized request" else "Refresh Token is expired or used")) ∧
    (refreshAccessToken env store req).statusCode = some 401 ∧
    (refreshAccessToken env store req).cookies = [] ∧
    (refreshAccessToken env store req).store = store ∧
    findById (refreshAccessToken env store req).store decodedId = some user := by
  rw [refreshAccessToken_of_mismatch env store req token decodedId user hPresented hVerify hUser
    hMismatch]
  simp [Result.statusCode, Result.cookies, hUser]

/-- Witness of C1: the stale token `refresh.0` of a user whose slot holds
`refresh.1`, with collaborators that verify every token as user 1. -/
theorem refreshAccessToken_mismatch_rejected_witness :
    (refreshAccessToken { demoEnv with jwtVerify := fun _ => .ok (some 1) } [alice]
        (refreshRequest "refresh.0")).outcome =
      .error (.apiError 401
        (if "refresh.0" = "" then "Unauthorized request" else "Refresh Token is expired or used")) ∧
    (refreshAccessToken { demoEnv with jwtVerify := fun _ => .ok (some 1) } [alice]
        (refreshRequest "refresh.0")).statusCode = some 401 ∧
    (refreshAccessToken { demoEnv with jwtVerify := fun _ => .ok (some 1) } [alice]
        (refreshRequest "refresh.0")).cookies = [] ∧
    (refreshAccessToken { demoEnv with jwtVerify := fun _ => .ok (some 1) } [alice]
        (refreshRequest "refresh.0")).store = [alice] ∧
    findById (refreshAccessToken { demoEnv with jwtVerify := fun _ => .ok (some 1) } [alice]
        (refreshRequest "refresh.0")).store (some 1) = some alice :=
  refreshAccessToken_mismatch_rejected { demoEnv with jwtVerify := fun _ => .ok (some 1) } [alice]
    (refreshRequest "refresh.0") "refresh.0" (some 1) alice (by decide) rfl (by decide) (by decide)

/-- C2, counterexample: with tokens that are a pure function of the identity, the
user whose slot holds the validly signed token `refresh.1` refreshes with it and
succeeds; the refresh token issued is `refresh.1` again, the slot holds the same
value as before, and a second refresh with the old token succeeds with 200
instead of failing with 401. -/
theorem refreshAccessToken_replay_accepted :
    demoEnv.jwtVerify "refresh.1" = .ok (some 1) ∧
    (findById [alice] (some 1)).map (fun u => u.refreshToken) = some (some "refresh.1") ∧
    (refreshAccessToken demoEnv [alice] (refreshRequest "refresh.1")).outcome =
      .ok { status := 200
            cookies := [("accessToken", "access.1", ⟨true, false⟩),
                        ("refreshToken", "refresh.1", ⟨true, false⟩)]
            clearedCookies := []
            json := ⟨200, .tokens "access.1" "refresh.1", "Access Token refreshed"⟩ } ∧
    (refreshAccessToken demoEnv
        (refreshAccessToken demoEnv [alice] (refreshRequest "refresh.1")).store
        (refreshRequest "refresh.1")).statusCode = some 200 := by
  decide

/-- C2, amended: a refresh with a validly signed token equal to the user's slot
succeeds with 200, returns the pair generated for the user in the body and in
the two cookies, and overwrites the slot with the new refresh token; a later
refresh with the old token fails the match check with ApiError 401, leaving the
store alone, whenever the new refresh token differs from the old one. -/
theorem refreshAccessToken_rotation (env : Collaborators) (store : Store) (req again : Request)
    (token : String) (decodedId : Option Nat) (user : User)
    (hPresented : jsOr req.cookies.refreshToken req.body.refreshToken = some token)
    (hNonempty : token ≠ "")
    (hVerify : env.jwtVerify token = .ok decodedId)
    (hUser : findById store decodedId = some user)
    (hMatch : user.refreshToken = some token)
    (hAgain : jsOr again.cookies.refreshToken again.body.refreshToken = some token) :
    (refreshAccessToken env store req).outcome =
      .ok { status := 200
            cookies := [("accessToken", env.generateAccessToken user, cookieOptions env),
                        ("refreshToken", env.generateRefreshToken user, cookieOptions env)]
            clearedCookies := []
            json := ⟨200, .tokens (env.generateAccessToken user) (env.generateRefreshToken user),
                     "Access Token refreshed"⟩ } ∧
    findById (refreshAccessToken env store req).store decodedId =
      some { user with refreshToken := some (env.generateRefreshToken user) } ∧
    (env.generateRefreshToken user ≠ token →
      refreshAccessToken env (refreshAccessToken env store req).store again =
        ⟨.error (.apiError 401 "Refresh Token is expired or used"),
          (refreshAccessToken env store req).store, []⟩) := by
  have hid : decodedId = some user._id := findById_some_id hUser
  have hfirst := refreshAccessToken_of_match env store req token decodedId user hPresented
    hNonempty hVerify hUser hMatch
  have hstored : findById (save store { user with refreshToken := some (env.generateRefreshToken user) })
      decodedId = some { user with refreshToken := some (env.generateRefreshToken user) } := by
    rw [hid]
    exact findById_save (by rw [← hid]; exact hUser) _ rfl
  rw [hfirst]
  refine ⟨rfl, hstored, ?_⟩
  intro hne
  have h := refreshAccessToken_of_mismatch env
    (save store { user with refreshToken := some (env.generateRefreshToken user) }) again token
    decodedId { user with refreshToken := some (env.generateRefreshToken user) } hAgain hVerify
    hstored (by simpa using hne)
  simpa [hNonempty] using h

/-- Witness of C2, amended: with rotating tokens the slot value `refresh.1` is
exchanged for `refresh.1+`, and the replay of `refresh.1` is rejected. -/
theorem refreshAccessToken_rotation_witness :
    (refreshAccessToken rotatingEnv [alice] (refreshRequest "refresh.1")).outcome =
      .ok { status := 200
            cookies := [("accessToken", "access.1", ⟨true, false⟩),
                        ("refreshToken", "refresh.1+", ⟨true, false⟩)]
            clearedCookies := []
            json := ⟨200, .tokens "access.1" "refresh.1+", "Access Token refreshed"⟩ } ∧
    findById (refreshAccessToken rotatingEnv [alice] (refreshRequest "refresh.1")).store (some 1) =
      some { alice with refreshToken := some "refresh.1+" } ∧
    refreshAccessToken rotatingEnv
        (refreshAccessToken rotatingEnv [alice] (refreshRequest "refresh.1")).store
        (refreshRequest "refresh.1") =
      ⟨.error (.apiError 401 "Refresh Token is expired or used"),
        (refreshAccessToken rotatingEnv [alice] (refreshRequest "refresh.1")).store, []⟩ :=
  have h := refreshAccessToken_rotation rotatingEnv [alice] (refreshRequest "refresh.1")
    (refreshRequest "refresh.1") "refresh.1" (some 1) alice (by decide) (by decide) (by decide)
    (by decide) (by decide) (by decide)
  ⟨h.1, h.2.1, h.2.2 (by decide)⟩

/-! ## Logout -/

/-- The update of line 108 writes nothing: `logoutUser` replies 200 with both
cookies cleared and leaves the store as it was, whoever is authenticated. -/
theorem logoutUser_store (env : Collaborators) (store : Store) (req : Request) :
    (logoutUser env store req).store = store ∧
    (logoutUser env store req).statusCode = some 200 := by
  refine ⟨?_, by simp [logoutUser, Result.statusCode]⟩
  cases hfind : findById store (req.user.map (fun u => u._id)) with
  | none => simp [logoutUser, findByIdAndUpdate, hfind]
  | some u =>
    have hid := findById_some_id hfind
    have hself : applyUpdate { refreshToken := none, avatar := none, coverImage := none } u = u := rfl
    simp only [logoutUser, findByIdAndUpdate, hfind, hself]
    rw [hid] at hfind
    exact save_self hfind

/-- C3: alice is authenticated and her slot holds the validly signed token
`refresh.1`; after `logoutUser` the slot still holds it, since the update of
line 108 has no key with a value, and `refreshAccessToken` with `refresh.1`
replies 200 with a new pair instead of failing with 401. -/
theorem logoutUser_keeps_slot_refresh_accepted :
    rotatingEnv.jwtVerify "refresh.1" = .ok (some 1) ∧
    (findById [alice] (some 1)).map (fun u => u.refreshToken) = some (some "refresh.1") ∧
    (logoutUser rotatingEnv [alice] { emptyRequest with user := some alice }).statusCode =
      some 200 ∧
    (findById (logoutUser rotatingEnv [alice] { emptyRequest with user := some alice }).store
        (some 1)).map (fun u => u.refreshToken) = some (some "refresh.1") ∧
    (refreshAccessToken rotatingEnv
        (logoutUser rotatingEnv [alice] { emptyRequest with user := some alice }).store
        (refreshRequest "refresh.1")).outcome =
      .ok { status := 200
            cookies := [("accessToken", "access.1", ⟨true, false⟩),
                        ("refreshToken", "refresh.1+", ⟨true, false⟩)]
            clearedCookies := []
            json := ⟨200, .tokens "access.1" "refresh.1+", "Access Token refreshed"⟩ } := by
  decide

/-! ## Login -/

/-- C6: a login that names an identifier and finds a user, but whose password
fails the check, throws ApiError 401; the store after the call is the store
before it, so the slot is unchanged, and no cookie is set. -/
theorem loginUser_wrong_password (env : Collaborators) (store : Store) (req : Request)
    (user : User)
    (hIdent : truthy req.body.username = true ∨ truthy req.body.email = true)
    (hUser : findOne store req.body.username req.body.email = some user)
    (hWrong : env.isPasswordCorrect user req.body.password = false) :
    (loginUser env store req).outcome = .error (.apiError 401 "Invalid credentials") ∧
    (loginUser env store req).statusCode = some 401 ∧
    (loginUser env store req).store = store ∧
    (loginUser env store req).cookies = [] := by
  have hguard : (!truthy req.body.username && !truthy req.body.email) = false := by
    rcases hIdent with h | h <;> simp [h]
  have key : loginUser env store req = ⟨.error (.apiError 401 "Invalid credentials"), store, []⟩ := by
    unfold loginUser
    simp [hguard, hUser, hWrong]
  rw [key]
  simp [Result.statusCode, Result.cookies]

/-- Witness of C6: alice with a wrong password. -/
theorem loginUser_wrong_password_witness :
    (loginUser demoEnv [alice] (loginRequest "alice" "guess")).outcome =
      .error (.apiError 401 "Invalid credentials") ∧
    (loginUser demoEnv [alice] (loginRequest "alice" "guess")).statusCode = some 401 ∧
    (loginUser demoEnv [alice] (loginRequest "alice" "guess")).store = [alice] ∧
    (loginUser demoEnv [alice] (loginRequest "alice" "guess")).cookies = [] :=
  loginUser_wrong_password demoEnv [alice] (loginRequest "alice" "guess") alice
    (Or.inl (by decide)) (by decide) (by decide)

/-- C7: a login that names an identifier, finds a user and passes the password
check replies 200; the refresh token of the body is the value of the
`refreshToken` cookie and of the user's stored slot after the call, the access
token of the body is the value of the `accessToken` cookie, and the user object
of the body has neither `password` nor `refreshToken`. -/
theorem loginUser_success (env : Collaborators) (store : Store) (req : Request) (user : User)
    (hIdent : truthy req.body.username = true ∨ truthy req.body.email = true)
    (hUser : findOne store req.body.username req.body.email = some user)
    (hPass : env.isPasswordCorrect user req.body.password = true) :
    ∃ (accessToken refreshToken : String) (loggedInUser stored : User),
      (loginUser env store req).outcome =
        .ok { status := 200
              cookies := [("accessToken", accessToken, cookieOptions env),
                          ("refreshToken", refreshToken, cookieOptions env)]
              clearedCookies := []
              json := ⟨200, .login (some loggedInUser) accessToken refreshToken,
                       "User logged in successfully"⟩ } ∧
      findById (loginUser env store req).store (some user._id) = some stored ∧
      stored.refreshToken = some refreshToken ∧
      loggedInUser._id = user._id ∧
      loggedInUser.password = none ∧
      loggedInUser.refreshToken = none := by
  have hguard : (!truthy req.body.username && !truthy req.body.email) = false := by
    rcases hIdent with h | h <;> simp [h]
  obtain ⟨found, hfound, hfid⟩ := findById_of_findOne hUser
  have hsaved : findById (save store { found with refreshToken := some (env.generateRefreshToken found) })
      (some user._id) = some { found with refreshToken := some (env.generateRefreshToken found) } :=
    findById_save hfound _ hfid
  have key : loginUser env store req =
      ⟨.ok { status := 200
             cookies := [("accessToken", env.generateAccessToken found, cookieOptions env),
                         ("refreshToken", env.generateRefreshToken found, cookieOptions env)]
             clearedCookies := []
             json := ⟨200, .login
                        (some (select ["password", "refreshToken"]
                          { found with refreshToken := some (env.generateRefreshToken found) }))
                        (env.generateAccessToken found) (env.generateRefreshToken found),
                      "User logged in successfully"⟩ },
        save store { found with refreshToken := some (env.generateRefreshToken found) }, []⟩ := by
    unfold loginUser
    simp [hguard, hUser, hPass, generateAccessAndRefreshTokens, hfound, hsaved]
  refine ⟨env.generateAccessToken found, env.generateRefreshToken found,
    select ["password", "refreshToken"]
      { found with refreshToken := some (env.generateRefreshToken found) },
    { found with refreshToken := some (env.generateRefreshToken found) }, ?_⟩
  rw [key]
  exact ⟨rfl, hsaved, rfl, hfid, by simp [select], by simp [select]⟩

/-- Witness of C7: alice with her password. -/
theorem loginUser_success_witness :
    ∃ (accessToken refreshToken : String) (loggedInUser stored : User),
      (loginUser demoEnv [alice] (loginRequest "alice" "Secr3t!")).outcome =
        .ok { status := 200
              cookies := [("accessToken", accessToken, cookieOptions demoEnv),
                          ("refreshToken", refreshToken, cookieOptions demoEnv)]
              clearedCookies := []
              json := ⟨200, .login (some loggedInUser) accessToken refreshToken,
                       "User logged in successfully"⟩ } ∧
      findById (loginUser demoEnv [alice] (loginRequest "alice" "Secr3t!")).store
        (some alice._id) = some stored ∧
      stored.refreshToken = some refreshToken ∧
      loggedInUser._id = alice._id ∧
      loggedInUser.password = none ∧
      loggedInUser.refreshToken = none :=
  loginUser_success demoEnv [alice] (loginRequest "alice" "Secr3t!") alice
    (Or.inl (by decide)) (by decide) (by decide)

/-! ## Change of password -/

/-- C8, counterexample: alice is authenticated and supplies a wrong old password;
the handler throws ApiError 400, not 401. -/
theorem changeCurrentPassword_wrong_old_password_is_400 :
    demoEnv.isPasswordCorrect alice (some "guess") = false ∧
    (changeCurrentPassword demoEnv [alice]
        { emptyRequest with
          user := some alice
          body := { emptyBody with oldPassword := some "guess", newPassword := some "n3w" } }).outcome =
      .error (.apiError 400 "Invalid old password") ∧
    (changeCurrentPassword demoEnv [alice]
        { emptyRequest with
          user := some alice
          body := { emptyBody with oldPassword := some "guess", newPassword := some "n3w" } }).statusCode ≠
      some 401 := by
  decide

/-- C8, amended: when the authenticated identity resolves to no user of the
store, `changeCurrentPassword` throws ApiError 404; when the user exists and
the old password fails the check, it throws ApiError 400 with the message
"Invalid old password"; in both cases the store, hence the stored password, is
what it was. -/
theorem changeCurrentPassword_failures (env : Collaborators) (store : Store) (req : Request) :
    (findById store (req.user.map (fun u => u._id)) = none →
      changeCurrentPassword env store req =
        ⟨.error (.apiError 404 "User not found"), store, []⟩) ∧
    (∀ user : User, findById store (req.user.map (fun u => u._id)) = some user →
      env.isPasswordCorrect user req.body.oldPassword = false →
      changeCurrentPassword env store req =
        ⟨.error (.apiError 400 "Invalid old password"), store, []⟩) := by
  constructor
  · intro hnone
    unfold changeCurrentPassword
    simp [hnone]
  · intro user hsome hwrong
    unfold changeCurrentPassword
    simp [hsome, hwrong]

/-- Witness of C8, amended: an identity that is not in the store, and alice with
a wrong old password. -/
theorem changeCurrentPassword_failures_witness :
    changeCurrentPassword demoEnv [] { emptyRequest with user := some alice } =
      ⟨.error (.apiError 404 "User not found"), [], []⟩ ∧
    changeCurrentPassword demoEnv [alice]
        { emptyRequest with
          user := some alice
          body := { emptyBody with oldPassword := some "guess", newPassword := some "n3w" } } =
      ⟨.error (.apiError 400 "Invalid old password"), [alice], []⟩ :=
  ⟨(changeCurrentPassword_failures demoEnv [] { emptyRequest with user := some alice }).1
      (by decide),
    (changeCurrentPassword_failures demoEnv [alice]
      { emptyRequest with
        user := some alice
        body := { emptyBody with oldPassword := some "guess", newPassword := some "n3w" } }).2
      alice (by decide) (by decide)⟩

/-! ## Registration -/

/-- The field check of line 24 on a field that is present: a field that is empty
or whitespace-only after trimming is rejected with ApiError 400 before any
store or upload call. -/
theorem registerUser_blank_field (env : Collaborators) (store : Store) (req : Request)
    (h : isBlankField req.body.fullName = true ∨ isBlankField req.body.email = true ∨
      isBlankField req.body.username = true ∨ isBlankField req.body.password = true) :
    registerUser env store req = ⟨.error (.apiError 400 "All fields are required"), store, []⟩ := by
  have hany : [req.body.fullName, req.body.email, req.body.username, req.body.password].any
      isBlankField = true := by
    rcases h with h | h | h | h <;> simp [h]
  unfold registerUser
  simp only [hany, if_true]

/-- The conflict check of lines 28 to 34: when no field is blank and the store
finds a user for the submitted username or email, the handler throws ApiError
409 with no upload and no `User.create`. -/
theorem registerUser_conflict (env : Collaborators) (store : Store) (req : Request)
    (existedUser : User)
    (hFields : [req.body.fullName, req.body.email, req.body.username, req.body.password].any
      isBlankField = false)
    (hFound : findOne store req.body.username req.body.email = some existedUser) :
    registerUser env store req =
      ⟨.error (.apiError 409 "User with email or username already exists"), store, []⟩ := by
  unfold registerUser
  simp [hFields, hFound]

/-- C4: a registration whose `fullName` is missing is not rejected by the field
check, since `undefined?.trim() === ""` is false. With the email of an existing
user the handler throws ApiError 409, not 400; on an empty store it goes on to
the upload and calls `User.create` with `fullName` undefined. -/
theorem registerUser_missing_field_passes_check :
    isBlankField none = false ∧
    (registerUser demoEnv [alice]
        (registerRequest none (some "alice@x.com") (some "bob") (some "pw"))).outcome =
      .error (.apiError 409 "User with email or username already exists") ∧
    (registerUser demoEnv []
        (registerRequest none (some "bob@x.com") (some "bob") (some "pw"))).calls =
      [.upload (some "a.png"),
       .create { fullName := none, avatar := some "https://cdn/a.png", coverImage := some "",
                 email := some "bob@x.com", password := some "pw", username := some "bob" }] ∧
    (registerUser demoEnv []
        (registerRequest none (some "bob@x.com") (some "bob") (some "pw"))).statusCode ≠
      some 400 := by
  decide

/-- C5: a registration with no blank field whose username, in lower-cased form,
or whose email equals that of a user of the store throws ApiError 409; the
upload collaborator is not called, `User.create` is not called, and the store
is what it was. -/
theorem registerUser_existing_user_conflict (env : Collaborators) (store : Store)
    (req : Request) (existing : User)
    (hFields : [req.body.fullName, req.body.email, req.body.username, req.body.password].any
      isBlankField = false)
    (hMember : existing ∈ store)
    (hSame : existing.username = req.body.username.map toLowerCase ∨
      existing.email = req.body.email) :
    (registerUser env store req).outcome =
      .error (.apiError 409 "User with email or username already exists") ∧
    (registerUser env store req).statusCode = some 409 ∧
    (registerUser env store req).calls = [] ∧
    (registerUser env store req).store = store := by
  have hsome : (findOne store req.body.username req.body.email).isSome = true := by
    unfold findOne
    rw [List.find?_isSome]
    refine ⟨existing, hMember, ?_⟩
    rcases hSame with h | h <;> simp [h]
  obtain ⟨existedUser, hFound⟩ := Option.isSome_iff_exists.mp hsome
  rw [registerUser_conflict env store req existedUser hFields hFound]
  simp [Result.statusCode]

/-- Witness of C5: `Alice` registers with a new email while `alice` is in the
store. -/
theorem registerUser_existing_user_conflict_witness :
    (registerUser demoEnv [alice]
        (registerRequest (some "Alice B") (some "new@x.com") (some "Alice") (some "pw"))).outcome =
      .error (.apiError 409 "User with email or username already exists") ∧
    (registerUser demoEnv [alice]
        (registerRequest (some "Alice B") (some "new@x.com") (some "Alice") (some "pw"))).statusCode =
      some 409 ∧
    (registerUser demoEnv [alice]
        (registerRequest (some "Alice B") (some "new@x.com") (some "Alice") (some "pw"))).calls =
      [] ∧
    (registerUser demoEnv [alice]
        (registerRequest (some "Alice B") (some "new@x.com") (some "Alice") (some "pw"))).store =
      [alice] :=
  registerUser_existing_user_conflict demoEnv [alice]
    (registerRequest (some "Alice B") (some "new@x.com") (some "Alice") (some "pw")) alice
    (by decide) (by decide) (Or.inl (by decide))

/-! ## Watch history -/

/-- C9: `getWatchHistory` throws a ReferenceError for every request and every
store, since `mongoose` is not among the imports of the module; it never
replies, with 200 or otherwise, and an empty history makes no difference. -/
theorem getWatchHistory_throws_reference_error (env : Collaborators) (store : Store)
    (req : Request) :
    getWatchHistory env store req =
      ⟨.error (.referenceError "mongoose is not defined"), store, []⟩ ∧
    (getWatchHistory env store req).statusCode ≠ some 200 := by
  have key : getWatchHistory env store req =
      ⟨.error (.referenceError "mongoose is not defined"), store, []⟩ := by
    have hres : resolveIdentifier "mongoose" = .error (.referenceError "mongoose is not defined") := by
      decide
    unfold getWatchHistory
    rw [hres]
  rw [key]
  exact ⟨rfl, by simp [Result.statusCode]⟩

/-! ## Upload -/

/-- What `uploadOnCloudinary` returns, in closed form. -/
theorem uploadOnCloudinary_eq (env : Collaborators) (localFilepath : Option String) :
    uploadOnCloudinary env localFilepath =
      .ok (match localFilepath with
        | none => none
        | some path =>
          if path = "" then none
          else
            match env.upload path with
            | .ok response => some response
            | .error _ => none) := by
  cases localFilepath with
  | none => simp [uploadOnCloudinary]
  | some path =>
    by_cases hp : path = ""
    · simp [uploadOnCloudinary, truthy, hp]
    · cases hup : env.upload path with
      | ok uploaded => simp [uploadOnCloudinary, truthy, hp, hup]
      | error message =>
        cases hex : env.existsSync (some path) <;> cases hun : env.unlinkSync (some path) <;>
          simp [uploadOnCloudinary, truthy, hp, hup, hex, hun]

/-- The function `uploadOnCloudinary` never throws: it returns null for a falsy
path and when the upload fails, and the response of the upload otherwise. -/
theorem uploadOnCloudinary_never_throws (env : Collaborators) (localFilepath : Option String) :
    ∃ response, uploadOnCloudinary env localFilepath = .ok response ∧
      (truthy localFilepath = false → response = none) ∧
      (∀ path message, localFilepath = some path → env.upload path = .error message →
        response = none) ∧
      (∀ path uploaded, localFilepath = some path → path ≠ "" → env.upload path = .ok uploaded →
        response = some uploaded) := by
  refine ⟨_, uploadOnCloudinary_eq env localFilepath, ?_, ?_, ?_⟩
  · intro hfalsy
    cases localFilepath with
    | none => rfl
    | some path =>
      have hp : path = "" := by simpa [truthy] using hfalsy
      simp [hp]
  · intro path message hpath herr
    subst hpath
    by_cases hp : path = "" <;> simp [hp, herr]
  · intro path uploaded hpath hp hok
    subst hpath
    simp [hp, hok]

/-- Line 207 on a null upload result: `updateUserAvatar` throws the TypeError of
`avatar.url`, whatever the store and the collaborators. -/
theorem updateUserAvatar_of_null_upload (env : Collaborators) (store : Store) (req : Request)
    (hFile : truthy (req.file.bind (fun f => f.path)) = true)
    (hNull : uploadOnCloudinary env (req.file.bind (fun f => f.path)) = .ok none) :
    updateUserAvatar env store req =
      ⟨.error (.typeError "Cannot read properties of null (reading url)"), store,
        [.upload (req.file.bind (fun f => f.path))]⟩ := by
  unfold updateUserAvatar
  simp [hFile, hNull]

/-- C10: `uploadOnCloudinary` returns null for a file whose upload fails, and
both `updateUserAvatar` and `updateUserCoverImage` then throw a TypeError from
reading `url` of null, not ApiError 400; the store is unchanged. -/
theorem updateUser_media_null_upload_type_error :
    uploadOnCloudinary demoEnv (some "broken.png") = .ok none ∧
    updateUserAvatar demoEnv [alice] (fileRequest alice "broken.png") =
      ⟨.error (.typeError "Cannot read properties of null (reading url)"), [alice],
        [.upload (some "broken.png")]⟩ ∧
    updateUserCoverImage demoEnv [alice] (fileRequest alice "broken.png") =
      ⟨.error (.typeError "Cannot read properties of null (reading url)"), [alice],
        [.upload (some "broken.png")]⟩ ∧
    (updateUserAvatar demoEnv [alice] (fileRequest alice "broken.png")).statusCode ≠ some 400 ∧
    (updateUserCoverImage demoEnv [alice] (fileRequest alice "broken.png")).statusCode ≠
      some 400 := by
  decide

end Backend
